import Mathlib

/-!
Verification of `droidproperties.py` (droidlysis).

Shallow embedding of the module's data model and operations:
Python dictionaries become insertion-ordered association lists with
overwrite-on-assignment semantics, the four pattern catalogs become
explicit parameters, and the tracker-import algorithm becomes a pure
function from the remote response and the catalog state to the
appended configuration blocks.

The sibling modules `droidutil`, `droidconfig`, `droidcountry` and
`droidsql` are not part of the analysed source tree; the few facts
about them that the theorems need are modelled from the design
document and marked `Modelled from the spec:` below.
-/

set_option autoImplicit false

/-- A Python value, restricted to the value shapes that occur in the
fields of `droidproperties`: booleans, non-negative integers, strings,
`None`, and lists of strings. -/
inductive PVal where
  | b (x : Bool)
  | n (x : Nat)
  | s (x : String)
  | null
  | strlist (xs : List String)
deriving DecidableEq, Repr

/-- A Python dictionary with string keys: an insertion-ordered
association list.  Item assignment overwrites in place (keeping the
key's position) or appends a fresh key at the end, exactly as CPython
dictionaries behave. -/
abbrev PyDict := List (String × PVal)

/-- `d[k] = v` on a Python dictionary. -/
def dictSet : PyDict → String → PVal → PyDict
  | [], k, v => [(k, v)]
  | (a, b2) :: rest, k, v =>
      if a = k then (k, v) :: rest else (a, b2) :: dictSet rest k v

/-- Dictionary lookup: the value stored under `k`, if any. -/
def dictGet : PyDict → String → Option PVal
  | [], _ => none
  | (a, b2) :: rest, k => if a = k then some b2 else dictGet rest k

/-- `d.clear()` on a Python dictionary. -/
def dictClear (_ : PyDict) : PyDict := []

/-- The key list of a Python dictionary. -/
def dictKeys (d : PyDict) : List String := d.map Prod.fst

/-- Modelled from the spec: the `droidutil` module is not under the
analysed sources; §3 declares `FileType` as the enumerated closed set
APK, DEX, ARM, CLASS, ZIP, RAR, UNKNOWN. -/
inductive FileType where
  | APK | DEX | ARM | CLASS | ZIP | RAR | UNKNOWN
deriving DecidableEq, Repr

/-- Modelled from the spec: the `droidcountry` module is not under the
analysed sources; §3 says the certificate country field defaults to
the code "unknown" (`droidcountry.country['unknown']` in the source). -/
def droidcountry_unknown : String := "unknown"

/-- Modelled from the spec: the `droidconfig` module is not under the
analysed sources.  §4.2 specifies a `PatternCatalog` as an ordered
sequence of sections, each a unique name with a `|`-delimited pattern
string. -/
structure droidconfig where
  sections : List (String × String)
deriving DecidableEq, Repr

/-- Split a list of characters on the pipe character, Python
`str.split('|')` style: always returns one part more than there are
separators. -/
def splitPipeChars : List Char → List (List Char)
  | [] => [[]]
  | c :: rest =>
      if c = '|' then [] :: splitPipeChars rest
      else
        match splitPipeChars rest with
        | [] => [[c]]
        | p :: ps => (c :: p) :: ps

/-- Split a string on `'|'`. -/
def splitPipe (s2 : String) : List String :=
  (splitPipeChars s2.toList).map (fun l => String.mk l)

/-- Modelled from the spec: `droidconfig.get_sections` — all currently
defined detector names, in source order (§4.2). -/
def droidconfig.get_sections (c : droidconfig) : List String :=
  c.sections.map Prod.fst

/-- Modelled from the spec: `droidconfig.is_pattern_present` — true if
the fragment is registered under any section of the catalog, i.e. is
one of the `|`-delimited fragments of some section's pattern (§4.2). -/
def droidconfig.is_pattern_present (c : droidconfig) (frag : String) : Bool :=
  c.sections.any (fun sec => (splitPipe sec.2).contains frag)

/-- Modelled from the spec: `droidconfig.get_pattern` — the raw
pattern string registered under a section name (§4.2). -/
def droidconfig.get_pattern (c : droidconfig) (name : String) : Option String :=
  (c.sections.find? (fun sec => sec.1 == name)).map Prod.snd

/-- The four category catalogs reachable from `self.config`
(`SMALI_CONFIGFILE`, `WIDE_CONFIGFILE`, `ARM_CONFIGFILE`,
`KIT_CONFIGFILE`), modelled by their parsed contents. -/
structure DroidConfig where
  SMALI_CONFIGFILE : droidconfig
  WIDE_CONFIGFILE : droidconfig
  ARM_CONFIGFILE : droidconfig
  KIT_CONFIGFILE : droidconfig
deriving DecidableEq, Repr

/-- The observable state of one `droidproperties` object: the sample
identity, the import-mode flag, the fixed scalar fields, and the seven
dictionary-valued fields. -/
structure droidproperties where
  sha256 : String
  sanitized_basename : String
  verbose : Bool
  import_exodus : Bool
  file_nb_classes : Nat
  file_nb_dir : Nat
  file_size : Nat
  file_small : Bool
  filetype : FileType
  file_innerzips : Bool
  certificate : PyDict
  manifest : PyDict
  smali : PyDict
  wide : PyDict
  arm : PyDict
  dex : PyDict
  kits : PyDict
deriving DecidableEq, Repr

/-- The certificate dictionary literal assigned by `clear_fields`
(source lines 77-88), in source order. -/
def certDefault : PyDict :=
  [("av", .b false),
   ("algo", .null),
   ("debug", .b false),
   ("dev", .b false),
   ("famous", .b false),
   ("serialno", .null),
   ("country", .s droidcountry_unknown),
   ("owner", .null),
   ("timestamp", .null),
   ("year", .n 0),
   ("unknown_country", .b false)]

/-- The manifest dictionary literal assigned by `clear_fields`
(source lines 91-106), in source order. -/
def manifestDefault : PyDict :=
  [("activities", .strlist []),
   ("libraries", .strlist []),
   ("listens_incoming_sms", .b false),
   ("listens_outgoing_call", .b false),
   ("maxSDK", .n 0),
   ("main_activity", .null),
   ("minSDK", .n 0),
   ("package_name", .null),
   ("permissions", .strlist []),
   ("providers", .strlist []),
   ("receivers", .strlist []),
   ("services", .strlist []),
   ("swf", .b false),
   ("targetSDK", .n 0)]

/-- The dex dictionary literal assigned by `clear_fields`
(source lines 135-142), in source order. -/
def dexDefault : PyDict :=
  [("magic", .n 0),
   ("odex", .b false),
   ("magic_unknown", .b false),
   ("bad_sha1", .b false),
   ("bad_adler32", .b false),
   ("big_header", .b false),
   ("thuxnder", .b false)]

/-- The smali dictionary rebuilt by `clear_fields` from a prior
dictionary `d0`: one `False` flag per catalog section (lines 111-112),
then the fixed extras `packed` and `multidex` (lines 114-115). -/
def smaliRebuild (c : DroidConfig) (d0 : PyDict) : PyDict :=
  dictSet
    (dictSet
      ((c.SMALI_CONFIGFILE.get_sections).foldl
        (fun d sec => dictSet d sec (.b false)) d0)
      "packed" (.b false))
    "multidex" (.strlist [])

/-- The wide dictionary rebuilt by `clear_fields` from a prior
dictionary `d0`: the five fixed extras first (lines 119-123), then one
`False` flag per catalog section (lines 125-126). -/
def wideRebuild (c : DroidConfig) (d0 : PyDict) : PyDict :=
  (c.WIDE_CONFIGFILE.get_sections).foldl
    (fun d sec => dictSet d sec (.b false))
    (dictSet
      (dictSet
        (dictSet
          (dictSet
            (dictSet d0 "app_name" .null)
            "phonenumbers" (.strlist []))
          "urls" (.strlist []))
        "base64_strings" (.strlist []))
      "apk_zip_url" (.b false))

/-- The arm dictionary rebuilt by `clear_fields` from a prior
dictionary `d0`: one `False` flag per catalog section (lines 131-132). -/
def armRebuild (c : DroidConfig) (d0 : PyDict) : PyDict :=
  (c.ARM_CONFIGFILE.get_sections).foldl
    (fun d sec => dictSet d sec (.b false)) d0

/-- The kits dictionary rebuilt by `clear_fields` from a prior
dictionary `d0`: one `False` flag per catalog section (lines 148-149). -/
def kitsRebuild (c : DroidConfig) (d0 : PyDict) : PyDict :=
  (c.KIT_CONFIGFILE.get_sections).foldl
    (fun d sec => dictSet d sec (.b false)) d0

/-- `droidproperties.clear_fields` (source lines 67-149): every scalar
field is reset to its zero value; `certificate`, `manifest` and `dex`
are cleared and rebound to the literal defaults; `smali`, `wide`,
`arm` and `kits` are cleared in place and repopulated from the
matching catalog's section list.  The administrative
`import_exodus` branch (lines 151-153, which runs the tracker import
and exits the process) is modelled separately by
`import_exodus_trackers`. -/
def clear_fields (config : DroidConfig) (p : droidproperties) : droidproperties :=
  { p with
    file_nb_classes := 0,
    file_nb_dir := 0,
    file_size := 0,
    file_small := false,
    filetype := FileType.UNKNOWN,
    file_innerzips := false,
    certificate := certDefault,
    manifest := manifestDefault,
    smali := smaliRebuild config (dictClear p.smali),
    wide := wideRebuild config (dictClear p.wide),
    arm := armRebuild config (dictClear p.arm),
    dex := dexDefault,
    kits := kitsRebuild config (dictClear p.kits) }

/-- A value of the JSON report document produced by `dump_json`. -/
inductive JVal where
  | js (x : String)
  | jn (x : Nat)
  | jb (x : Bool)
  | jft (t : FileType)
  | jdict (d : PyDict)
deriving DecidableEq, Repr

/-- `droidproperties.dump_json` (source lines 220-241): the `data`
dictionary that is serialized to the report file and returned. -/
def dump_json (p : droidproperties) : List (String × JVal) :=
  [("sanitized_basename", .js p.sanitized_basename),
   ("file_nb_classes", .jn p.file_nb_classes),
   ("file_nb_dir", .jn p.file_nb_dir),
   ("file_size", .jn p.file_size),
   ("file_small", .jb p.file_small),
   ("filetype", .jft p.filetype),
   ("file_innerzips", .jb p.file_innerzips),
   ("manifest_properties", .jdict p.manifest),
   ("smali_properties", .jdict p.smali),
   ("wide_properties", .jdict p.wide),
   ("arm_properties", .jdict p.arm),
   ("dex_properties", .jdict p.dex),
   ("kits", .jdict p.kits)]

/-- Modelled from the spec: the integer codes behind `droidutil`'s
file-type constants are not under the analysed sources; only a fixed
deterministic encoding matters for serialization. -/
def fileTypeCode : FileType → Nat
  | .APK => 0 | .DEX => 1 | .ARM => 2 | .CLASS => 3
  | .ZIP => 4 | .RAR => 5 | .UNKNOWN => 6

/-- A quoted JSON string (no escaping needed for the field names and
values in scope here). -/
def jsonString (s2 : String) : String := "\"" ++ s2 ++ "\""

/-- Comma-join, `", ".join` style. -/
def joinComma : List String → String
  | [] => ""
  | [x] => x
  | x :: xs => x ++ ", " ++ joinComma xs

/-- Deterministic serialization of a `PVal`, mirroring `json.dumps`. -/
def serializePVal : PVal → String
  | .b true => "true"
  | .b false => "false"
  | .n x => toString x
  | .s x => jsonString x
  | .null => "null"
  | .strlist xs => "[" ++ joinComma (xs.map jsonString) ++ "]"

/-- Deterministic serialization of a Python dictionary. -/
def serializePyDict (d : PyDict) : String :=
  "\x7b" ++
    joinComma (d.map (fun kv => jsonString kv.1 ++ ": " ++ serializePVal kv.2)) ++
  "\x7d"

/-- Deterministic serialization of a report value. -/
def serializeJVal : JVal → String
  | .js x => jsonString x
  | .jn x => toString x
  | .jb true => "true"
  | .jb false => "false"
  | .jft t => toString (fileTypeCode t)
  | .jdict d => serializePyDict d

/-- The bytes `dump_json` writes to the report file: the deterministic
serialization of the `data` dictionary. -/
def serializeReport (r : List (String × JVal)) : String :=
  "\x7b" ++
    joinComma (r.map (fun kv => jsonString kv.1 ++ ": " ++ serializeJVal kv.2)) ++
  "\x7d"

/-- One occurrence of `re.sub('\.\|', '|', s)` (source line 169): every
`".|"` pair collapses to `"|"`, scanning left to right. -/
def subDotPipe : List Char → List Char
  | [] => []
  | [c] => [c]
  | c :: c2 :: rest =>
      if c = '.' ∧ c2 = '|' then '|' :: subDotPipe rest
      else c :: subDotPipe (c2 :: rest)

/-- `str.rstrip('.')`: drop trailing dots. -/
def rstripDots (l : List Char) : List Char :=
  (l.reverse.dropWhile (fun c => c = '.')).reverse

/-- `str.lstrip('.')`: drop leading dots. -/
def lstripDots (l : List Char) : List Char :=
  l.dropWhile (fun c => c = '.')

/-- `str.replace('.', '/')`. -/
def dotToSlash (l : List Char) : List Char :=
  l.map (fun c => if c = '.' then '/' else c)

/-- `str.replace('\/', '/')` (a backslash-slash pair becomes a slash;
the Python literal `'\/'` is the two-character string backslash,
slash). -/
def unescapeSlash : List Char → List Char
  | [] => []
  | [c] => [c]
  | c :: c2 :: rest =>
      if c = '\\' ∧ c2 = '/' then '/' :: unescapeSlash rest
      else c :: unescapeSlash (c2 :: rest)

/-- The canonicalization pipeline of `import_exodus_trackers` (source
line 169): collapse dot-before-pipe, strip trailing then leading dots,
turn dots into slashes, unescape `\/`, split on `|`. -/
def canonicalize (s2 : String) : List String :=
  (splitPipeChars
    (unescapeSlash
      (dotToSlash
        (lstripDots
          (rstripDots
            (subDotPipe s2.toList)))))).map (fun l => String.mk l)

/-- `re.sub('[^a-zA-Z0-9/_]', '', sig)` (source line 171): keep only
ASCII letters, digits, slash and underscore. -/
def sanitizeFrag (s2 : String) : String :=
  String.mk (s2.toList.filter (fun c => c.isAlphanum || c = '/' || c = '_'))

/-- `re.sub('[^a-zA-Z0-9]', '', name).lower()` (source line 178): keep
only ASCII letters and digits, then lower-case. -/
def sanitizeName (s2 : String) : String :=
  String.mk ((s2.toList.filter (fun c => c.isAlphanum)).map Char.toLower)

/-- `'|'.join l`. -/
def joinPipe : List String → String
  | [] => ""
  | [x] => x
  | x :: xs => x ++ "|" ++ joinPipe xs

/-- One remote tracker descriptor of the Exodus feed: the fields
`name` and `code_signature` that the importer reads. -/
structure Tracker where
  name : String
  code_signature : String
deriving DecidableEq, Repr

/-- The in-memory `configparser.ConfigParser` being filled by the
importer: ordered sections, each an ordered list of key-value
options.  `config[name] = ...` overwrites an existing section of the
same name or appends a new one, like `dictSet`. -/
abbrev PyConfig := List (String × List (String × String))

/-- Section assignment on a `ConfigParser`. -/
def configSet : PyConfig → String → List (String × String) → PyConfig
  | [], k, v => [(k, v)]
  | (a, b2) :: rest, k, v =>
      if a = k then (k, v) :: rest else (a, b2) :: configSet rest k v

/-- The section body written for a newly imported tracker (source
lines 187-189): its description references the original name and the
feed, its pattern is the `'|'`-rejoin of the full canonicalized
fragment list. -/
def trackerEntry (t : Tracker) : List (String × String) :=
  [("description", t.name ++ " (from ETIP Exodus Privacy list)"),
   ("pattern", joinPipe (canonicalize t.code_signature))]

/-- The inner fragment loop of `import_exodus_trackers` (source lines
170-190): `full` is the complete canonicalized fragment list of the
descriptor, the last argument the fragments still to visit.  A
pure-noise fragment is skipped (`continue`); a fragment already
present in the kit catalog, or a sanitized name already present among
the record's kit keys, ends the descriptor with no addition
(`break`); otherwise the section is written and the loop ends
(`break`). -/
def processFrags (kc : droidconfig) (kitsKeys : List String) (t : Tracker)
    (config : PyConfig) : List String → PyConfig
  | [] => config
  | sig :: rest =>
      if sanitizeFrag sig = "" then processFrags kc kitsKeys t config rest
      else if kc.is_pattern_present sig then config
      else if kitsKeys.contains (sanitizeName t.name) then config
      else configSet config (sanitizeName t.name) (trackerEntry t)

/-- Processing of one remote descriptor by `import_exodus_trackers`:
the fragment loop run over the canonicalized signature. -/
def processTracker (kc : droidconfig) (kitsKeys : List String)
    (config : PyConfig) (t : Tracker) : PyConfig :=
  processFrags kc kitsKeys t config (canonicalize t.code_signature)

/-- The remote feed's answer: the HTTP status code and the parsed JSON
array of descriptors (claims in scope presuppose a well-formed
payload; a malformed payload raises out of this function in the
source). -/
structure FeedResponse where
  status_code : Nat
  trackers : List Tracker
deriving DecidableEq, Repr

/-- `droidproperties.import_exodus_trackers` (source lines 156-194) as
a function of the feed response, the loaded kit catalog
(`self.kitsconfig`) and the key list of the record's `kits`
dictionary.  `none` means the operation returned before reaching the
file write (non-success response, line 164): the backing config
source is not written at all.  `some cfg` means the blocks of `cfg`
are appended to `KIT_CONFIGFILE` (lines 193-194); prior sections of
the file are never rewritten. -/
def import_exodus_trackers (resp : FeedResponse) (kc : droidconfig)
    (kitsKeys : List String) : Option PyConfig :=
  if resp.status_code ≠ 200 then none
  else some (resp.trackers.foldl (fun cfg t => processTracker kc kitsKeys cfg t) [])

/-- Modelled from the spec: `droidsql.Sample` is not under the
analysed sources; §6 gives the relational row shape — one row per
sample keyed by sha256 (unique), scalar columns plus the category
sub-records serialized into text columns, as built in `write`
(source lines 199-212). -/
structure SqlSample where
  sha256 : String
  sanitized_basename : String
  file_nb_classes : Nat
  file_nb_dir : Nat
  file_size : Nat
  file_small : Bool
  filetype : FileType
  file_innerzips : Bool
  manifest_properties : String
  smali_properties : String
  wide_properties : String
  arm_properties : String
  dex_properties : String
  kits : String
deriving DecidableEq, Repr

/-- The row `write` builds from the record (source lines 199-212). -/
def mkSample (p : droidproperties) : SqlSample :=
  { sha256 := p.sha256,
    sanitized_basename := p.sanitized_basename,
    file_nb_classes := p.file_nb_classes,
    file_nb_dir := p.file_nb_dir,
    file_size := p.file_size,
    file_small := p.file_small,
    filetype := p.filetype,
    file_innerzips := p.file_innerzips,
    manifest_properties := serializePyDict p.manifest,
    smali_properties := serializePyDict p.smali,
    wide_properties := serializePyDict p.wide,
    arm_properties := serializePyDict p.arm,
    dex_properties := serializePyDict p.dex,
    kits := serializePyDict p.kits }

/-- The errors a commit can raise: the duplicate-key integrity
conflict, or any other engine failure. -/
inductive SqlError where
  | IntegrityError
  | OperationalError
deriving DecidableEq, Repr

/-- Modelled from the spec: `session.add` + `session.commit` against
the relational store (sqlalchemy is an external collaborator).  An
environment fault `fault`, when present, makes the commit fail with
that error; otherwise inserting a row whose sha256 is already stored
raises `IntegrityError`, and any other insert succeeds by appending
the row. -/
def session_commit (fault : Option SqlError) (db : List SqlSample)
    (s2 : SqlSample) : Except SqlError (List SqlSample) :=
  match fault with
  | some e => .error e
  | none =>
      if db.any (fun r => r.sha256 == s2.sha256) then .error SqlError.IntegrityError
      else .ok (db ++ [s2])

/-- `droidproperties.write` (source lines 196-218): build the row,
commit it, and catch exactly `IntegrityError` (the duplicate sample,
logged at debug level); every other commit failure propagates. -/
def dbWrite (fault : Option SqlError) (db : List SqlSample)
    (p : droidproperties) : Except SqlError (List SqlSample) :=
  match session_commit fault db (mkSample p) with
  | .ok db2 => .ok db2
  | .error SqlError.IntegrityError => .ok db
  | .error e => .error e

/-- The number of stored rows carrying a given sha256. -/
def countSha (db : List SqlSample) (h : String) : Nat :=
  db.countP (fun r => r.sha256 == h)

/-- The seven dictionary-valued attribute names declared in the class
body of `droidproperties` (source lines 48-54). -/
inductive Attr where
  | certificate | manifest | smali | wide | arm | dex | kits
deriving DecidableEq, Repr

/-- A reference into the heap of live dictionaries. -/
abbrev Ref := Nat

/-- The heap of live Python dictionaries, addressed by allocation
index. -/
structure Heap where
  dicts : List PyDict
deriving DecidableEq, Repr

/-- Read the dictionary behind a reference. -/
def Heap.getRef (h : Heap) (r : Ref) : PyDict := h.dicts.getD r []

/-- Overwrite the dictionary behind a reference (an in-place mutation,
visible through every alias of the reference). -/
def Heap.setRef (h : Heap) (r : Ref) (d : PyDict) : Heap := ⟨h.dicts.set r d⟩

/-- Allocate a fresh dictionary and return its reference. -/
def Heap.alloc (h : Heap) (d : PyDict) : Heap × Ref :=
  (⟨h.dicts ++ [d]⟩, h.dicts.length)

/-- The class-level attribute table: every attribute bound to the
reference of the dictionary allocated in the class body. -/
abbrev ClassAttrs := Attr → Ref

/-- The per-instance attribute table: `none` while the instance has
never rebound the attribute, in which case Python attribute lookup
falls through to the class table. -/
abbrev InstAttrs := Attr → Option Ref

/-- Python attribute resolution: the instance binding if present,
else the class binding. -/
def resolveAttr (cls : ClassAttrs) (inst : InstAttrs) (a : Attr) : Ref :=
  (inst a).getD (cls a)

/-- `self.a = ...`: assignment creates or replaces an instance-level
binding, never touching the class table. -/
def instSet (inst : InstAttrs) (a : Attr) (r : Ref) : InstAttrs :=
  fun a2 => if a2 = a then some r else inst a2

/-- `droidproperties.clear_fields` replayed against the heap model
(source lines 67-149).  `certificate`, `manifest` and `dex` are
cleared through the resolved reference and then rebound
(`self.x = ...`) to a freshly allocated dictionary, so the instance
acquires its own binding; `smali`, `wide`, `arm` and `kits` are only
cleared (`.clear()`, which empties the referenced dictionary in
place) and item-assigned through the resolved reference, which
mutates the shared class-level dictionary and never creates an
instance binding.  Clearing followed by key insertion is rendered as
two in-place overwrites of the same reference: first with the empty
dictionary, then with the rebuild from empty. -/
def clear_fields_heap (config : DroidConfig) (cls : ClassAttrs)
    (h : Heap) (inst : InstAttrs) : Heap × InstAttrs :=
  let h1 := h.setRef (resolveAttr cls inst .certificate) []
  let hr1 := h1.alloc certDefault
  let inst1 := instSet inst .certificate hr1.2
  let h2 := hr1.1.setRef (resolveAttr cls inst1 .manifest) []
  let hr2 := h2.alloc manifestDefault
  let inst2 := instSet inst1 .manifest hr2.2
  let h3 := hr2.1.setRef (resolveAttr cls inst2 .smali) []
  let h4 := h3.setRef (resolveAttr cls inst2 .smali) (smaliRebuild config [])
  let h5 := h4.setRef (resolveAttr cls inst2 .wide) []
  let h6 := h5.setRef (resolveAttr cls inst2 .wide) (wideRebuild config [])
  let h7 := h6.setRef (resolveAttr cls inst2 .arm) []
  let h8 := h7.setRef (resolveAttr cls inst2 .arm) (armRebuild config [])
  let h9 := h8.setRef (resolveAttr cls inst2 .dex) []
  let hr3 := h9.alloc dexDefault
  let inst3 := instSet inst2 .dex hr3.2
  let h10 := hr3.1.setRef (resolveAttr cls inst3 .kits) []
  let h11 := h10.setRef (resolveAttr cls inst3 .kits) (kitsRebuild config [])
  (h11, inst3)

/-- The state produced by evaluating the class body (source lines
48-54): seven empty dictionaries, one per attribute, all bound at
class level. -/
def initHeap : Heap := ⟨[[], [], [], [], [], [], []]⟩

/-- The class-level references of the seven dictionaries of
`initHeap`. -/
def initClass : ClassAttrs
  | .certificate => 0
  | .manifest => 1
  | .smali => 2
  | .wide => 3
  | .arm => 4
  | .dex => 5
  | .kits => 6

/-- `droidproperties.__init__` on the heap model: a new instance
starts with no instance-level bindings and immediately runs
`clear_fields` (source line 65). -/
def newInstance (config : DroidConfig) (cls : ClassAttrs) (h : Heap) :
    Heap × InstAttrs :=
  clear_fields_heap config cls h (fun _ => none)

/-- Scenario for the aliasing analysis: instance A is constructed
first, from the pristine class state. -/
def instanceA (config : DroidConfig) : Heap × InstAttrs :=
  newInstance config initClass initHeap

/-- Instance B is constructed second, over the heap left by A's
construction. -/
def instanceB (config : DroidConfig) : Heap × InstAttrs :=
  newInstance config initClass (instanceA config).1

/-- A's analysis then records a detection: it writes the flag `k := v`
into the dictionary A reaches through its `smali` attribute. -/
def mutatedHeap (config : DroidConfig) (k : String) (v : PVal) : Heap :=
  Heap.setRef (instanceB config).1
    (resolveAttr initClass (instanceA config).2 Attr.smali)
    (dictSet
      (Heap.getRef (instanceB config).1
        (resolveAttr initClass (instanceA config).2 Attr.smali)) k v)

/-- Finally `clear_fields` runs on instance B (reset for B's next
sample). -/
def afterBReset (config : DroidConfig) (k : String) (v : PVal) :
    Heap × InstAttrs :=
  clear_fields_heap config initClass (mutatedHeap config k v)
    (instanceB config).2

/-- The heap after A's construction: the seven class-level
dictionaries (A's reset rebuilt indices 2, 3, 4, 6 in place and
emptied 0, 1, 5 before rebinding), followed by A's three freshly
allocated fixed sub-records at indices 7, 8, 9. -/
def heapA (config : DroidConfig) : Heap :=
  ⟨[[], [], smaliRebuild config [], wideRebuild config [],
    armRebuild config [], [], kitsRebuild config [],
    certDefault, manifestDefault, dexDefault]⟩

/-- The heap after B's construction: B's reset rewrote the shared
dictionaries 2, 3, 4, 6 (same values) and allocated B's own fixed
sub-records at indices 10, 11, 12. -/
def heapB (config : DroidConfig) : Heap :=
  ⟨[[], [], smaliRebuild config [], wideRebuild config [],
    armRebuild config [], [], kitsRebuild config [],
    certDefault, manifestDefault, dexDefault,
    certDefault, manifestDefault, dexDefault]⟩

/-- The heap after A's analysis wrote the flag `k := v` into the
shared smali dictionary (index 2). -/
def heapMut (config : DroidConfig) (k : String) (v : PVal) : Heap :=
  ⟨[[], [], dictSet (smaliRebuild config []) k v, wideRebuild config [],
    armRebuild config [], [], kitsRebuild config [],
    certDefault, manifestDefault, dexDefault,
    certDefault, manifestDefault, dexDefault]⟩

/-- The heap after B's second reset: the shared dictionaries 2, 3, 4,
6 are rebuilt (erasing A's flag), B's previous fixed sub-records 10,
11, 12 are emptied in place, and B's new ones live at 13, 14, 15.
A's fixed sub-records 7, 8, 9 are untouched. -/
def heapFinal (config : DroidConfig) : Heap :=
  ⟨[[], [], smaliRebuild config [], wideRebuild config [],
    armRebuild config [], [], kitsRebuild config [],
    certDefault, manifestDefault, dexDefault,
    [], [], [],
    certDefault, manifestDefault, dexDefault]⟩

/-- B's instance-level attribute bindings after its construction. -/
def instAttrsB : InstAttrs
  | .certificate => some 10
  | .manifest => some 11
  | .dex => some 12
  | _ => none

/-- B's instance-level attribute bindings after its second reset. -/
def instAttrsBReset : InstAttrs
  | .certificate => some 13
  | .manifest => some 14
  | .dex => some 15
  | _ => none

/-- The first fragment of a canonicalized signature that survives the
noise filter — the fragment on which the merge decision of the import
loop is actually taken. -/
def firstUsable (l : List String) : Option String :=
  l.find? (fun sig => sanitizeFrag sig != "")

/-- A concrete catalog configuration used to instantiate the general
theorems: one section per category. -/
def sampleConfigW : DroidConfig :=
  ⟨⟨[("s1", "a/b")]⟩, ⟨[("w1", "c")]⟩, ⟨[("a1", "d")]⟩, ⟨[("k1", "e")]⟩⟩

/-- A concrete record in an arbitrarily mutated state (residue from a
previous sample in every field), used to instantiate the general
theorems. -/
def sampleRecordW : droidproperties :=
  { sha256 := "abc",
    sanitized_basename := "m.apk",
    verbose := false,
    import_exodus := false,
    file_nb_classes := 5,
    file_nb_dir := 2,
    file_size := 999,
    file_small := true,
    filetype := FileType.APK,
    file_innerzips := true,
    certificate := [("junk", .b true)],
    manifest := [("leftover", .s "x")],
    smali := [("old_section", .b true)],
    wide := [("app_name", .s "Evil")],
    arm := [("x", .b true)],
    dex := [("magic", .n 7)],
    kits := [("k0", .b true)] }

/-- A second record carrying the same sha256 as `sampleRecordW` but
different contents. -/
def sampleRecordW2 : droidproperties :=
  { sampleRecordW with sanitized_basename := "other.apk", file_size := 1 }

theorem dictGet_dictSet (d : PyDict) (k q : String) (v : PVal) :
    dictGet (dictSet d k v) q = if q = k then some v else dictGet d q := by
  induction d with
  | nil =>
      by_cases h : q = k
      · simp [dictSet, dictGet, h]
      · simp [dictSet, dictGet, h, Ne.symm h]
  | cons hd tl ih =>
      obtain ⟨a, b2⟩ := hd
      by_cases h1 : a = k
      · by_cases h2 : q = k
        · simp [dictSet, dictGet, h1, h2]
        · have h3 : ¬ a = q := fun h4 => h2 (h4.symm.trans h1)
          simp [dictSet, dictGet, h1, h2, Ne.symm h2, h3]
      · by_cases h2 : a = q
        · have h3 : ¬ q = k := fun h4 => h1 (h2.trans h4)
          simp [dictSet, dictGet, h1, h2, h3]
        · simp [dictSet, dictGet, h1, h2, ih]

theorem dictKeys_dictSet (d : PyDict) (k q : String) (v : PVal) :
    q ∈ dictKeys (dictSet d k v) ↔ q = k ∨ q ∈ dictKeys d := by
  induction d with
  | nil => simp [dictSet, dictKeys]
  | cons hd tl ih =>
      obtain ⟨a, b2⟩ := hd
      by_cases h1 : a = k
      · simp only [dictSet, if_pos h1, dictKeys, List.map_cons, List.mem_cons]
        rw [h1]
        tauto
      · simp only [dictSet, if_neg h1, dictKeys, List.map_cons, List.mem_cons]
        simp only [dictKeys] at ih
        rw [ih]
        tauto

theorem dictGet_foldl_false (l : List String) (d0 : PyDict) (q : String) :
    dictGet (l.foldl (fun d sec => dictSet d sec (PVal.b false)) d0) q =
      if q ∈ l then some (PVal.b false) else dictGet d0 q := by
  induction l generalizing d0 with
  | nil => simp
  | cons a l ih =>
      simp only [List.foldl_cons, ih, dictGet_dictSet, List.mem_cons]
      by_cases h1 : q ∈ l
      · simp [h1]
      · by_cases h2 : q = a <;> simp [h1, h2]

theorem dictKeys_foldl_false (l : List String) (d0 : PyDict) (q : String) :
    q ∈ dictKeys (l.foldl (fun d sec => dictSet d sec (PVal.b false)) d0) ↔
      q ∈ l ∨ q ∈ dictKeys d0 := by
  induction l generalizing d0 with
  | nil => simp
  | cons a l ih =>
      simp only [List.foldl_cons, ih, dictKeys_dictSet, List.mem_cons]
      tauto

theorem length_configSet (cfg : PyConfig) (k : String)
    (v : List (String × String)) :
    (configSet cfg k v).length ≤ cfg.length + 1 := by
  induction cfg with
  | nil => simp [configSet]
  | cons hd tl ih =>
      obtain ⟨a, b2⟩ := hd
      by_cases h : a = k
      · simp [configSet, h]
      · simp only [configSet, if_neg h, List.length_cons]
        omega

/-- Claim C3: the tracker-importer canonicalization, applied to the
code_signature string "a.b.|c.d.", produces exactly the fragment
sequence ["a/b", "c/d"]: the dot directly before the pipe is removed,
leading and trailing dots of the whole string are stripped, remaining
dots become slashes, and the result is split on the pipe. -/
theorem canonicalize_dot_pipe_example :
    canonicalize "a.b.|c.d." = ["a/b", "c/d"] := by decide

/-- Claim C5: given an empty kit catalog (no sections, so the record's
kits dictionary has no keys either) and a remote feed containing
exactly the descriptor (name "Foo", code_signature "a.b"), the import
appends exactly one new section to the kit catalog's backing config
source, named "foo" (display name lower-cased with non-alphanumeric
characters stripped), with pattern value "a/b". -/
theorem import_new_tracker_appends_foo :
    import_exodus_trackers ⟨200, [⟨"Foo", "a.b"⟩]⟩ ⟨[]⟩ [] =
      some [("foo", [("description", "Foo (from ETIP Exodus Privacy list)"),
                     ("pattern", "a/b")])] := by decide

/-- Counterexample to claim C4 as stated: the code_signature ".-.-."
does not yield zero usable fragments.  Its canonicalization is the
single fragment dash, slash, dash (the inner dots become slashes
before the noise filter runs), and removing every character outside
[a-zA-Z0-9/_] from that fragment leaves the non-empty string "/", so
the fragment is not discarded; against an empty kit catalog the
descriptor is therefore not skipped, and the import appends a
section — a catalog change. -/
theorem noise_signature_not_skipped :
    canonicalize ".-.-." = ["-/-"] ∧
    sanitizeFrag "-/-" = "/" ∧
    sanitizeFrag "-/-" ≠ "" ∧
    import_exodus_trackers ⟨200, [⟨"X", ".-.-."⟩]⟩ ⟨[]⟩ [] =
      some [("x", [("description", "X (from ETIP Exodus Privacy list)"),
                   ("pattern", "-/-")])] := by decide

/-- Claim C4, amended: a remote descriptor all of whose canonicalized
fragments are pure noise — empty after removing every character
outside [a-zA-Z0-9/_] — contributes nothing: every fragment is
discarded by `continue`, the descriptor is skipped without error, and
the configuration being built (hence the catalog) is unchanged. -/
theorem all_noise_descriptor_skipped (kc : droidconfig)
    (kitsKeys : List String) (config : PyConfig) (t : Tracker)
    (h : ∀ sig ∈ canonicalize t.code_signature, sanitizeFrag sig = "") :
    processTracker kc kitsKeys config t = config := by
  unfold processTracker
  revert h
  generalize canonicalize t.code_signature = l
  intro h
  induction l with
  | nil => rfl
  | cons a l ih =>
      have ha : sanitizeFrag a = "" := h a (by simp)
      simp only [processFrags, if_pos ha]
      exact ih (fun sig hs => h sig (by simp [hs]))

/-- Witness for the amended C4 at the concrete descriptor
(name "X", code_signature "-|-"): both candidate fragments sanitize to
the empty string, and processing the descriptor against an empty kit
catalog leaves the configuration empty. -/
theorem all_noise_descriptor_skipped_witness :
    (∀ sig ∈ canonicalize "-|-", sanitizeFrag sig = "") ∧
      processTracker ⟨[]⟩ [] [] ⟨"X", "-|-"⟩ = [] :=
  ⟨by decide, all_noise_descriptor_skipped ⟨[]⟩ [] [] ⟨"X", "-|-"⟩ (by decide)⟩

/-- Claim C6, amended: for every remote descriptor, either nothing is
appended or exactly one section is appended, and an appended section's
pattern value is the pipe-rejoin of the FULL canonicalized fragment
list — including the fragments that the noise filter discarded during
iteration — because the source joins `code_signature`, the whole split
list, not the surviving fragments.  In either case the configuration
grows by at most one section per descriptor. -/
theorem appended_pattern_is_full_rejoin (kc : droidconfig)
    (kitsKeys : List String) (config : PyConfig) (t : Tracker) :
    (processTracker kc kitsKeys config t = config ∨
      processTracker kc kitsKeys config t =
        configSet config (sanitizeName t.name)
          [("description", t.name ++ " (from ETIP Exodus Privacy list)"),
           ("pattern", joinPipe (canonicalize t.code_signature))]) ∧
    (processTracker kc kitsKeys config t).length ≤ config.length + 1 := by
  have main : ∀ l, processFrags kc kitsKeys t config l = config ∨
      processFrags kc kitsKeys t config l =
        configSet config (sanitizeName t.name) (trackerEntry t) := by
    intro l
    induction l with
    | nil => exact Or.inl rfl
    | cons a l ih =>
        by_cases h1 : sanitizeFrag a = ""
        · simpa [processFrags, h1] using ih
        · cases h2 : kc.is_pattern_present a with
          | true =>
              left
              simp [processFrags, h1, h2]
          | false =>
              cases h3 : kitsKeys.contains (sanitizeName t.name) with
              | true =>
                  left
                  simp only [processFrags, if_neg h1, h2]
                  simp only [Bool.false_eq_true, if_false]
                  rw [if_pos]
                  simpa using h3
              | false =>
                  right
                  simp only [processFrags, if_neg h1, h2]
                  simp only [Bool.false_eq_true, if_false]
                  rw [if_neg]
                  simpa using h3
  have entry_eq : trackerEntry t =
      [("description", t.name ++ " (from ETIP Exodus Privacy list)"),
       ("pattern", joinPipe (canonicalize t.code_signature))] := rfl
  refine ⟨?_, ?_⟩
  · rcases main (canonicalize t.code_signature) with h | h
    · exact Or.inl h
    · exact Or.inr (by rw [processTracker, h, entry_eq])
  · rcases main (canonicalize t.code_signature) with h | h
    · rw [processTracker, h]; omega
    · rw [processTracker, h]
      exact length_configSet config (sanitizeName t.name) (trackerEntry t)

/-- Counterexample to claim C6 as stated: for the descriptor
(name "Foo", code_signature "-|a.b") against an empty kit catalog, the
surviving fragments after the noise filter are exactly ["a/b"], whose
rejoin is "a/b"; yet the appended section's pattern is "-|a/b", the
rejoin of the full canonicalized list with the discarded noise
fragment still in it. -/
theorem appended_pattern_keeps_noise_counterexample :
    processTracker ⟨[]⟩ [] [] ⟨"Foo", "-|a.b"⟩ =
      [("foo", [("description", "Foo (from ETIP Exodus Privacy list)"),
                ("pattern", "-|a/b")])] ∧
    (canonicalize "-|a.b").filter (fun sig => sanitizeFrag sig != "") = ["a/b"] ∧
    joinPipe ["a/b"] = "a/b" ∧
    ("-|a/b" : String) ≠ "a/b" := by decide

/-- Claim C7, amended: for every remote descriptor, if the FIRST
canonicalized fragment that survives the noise filter is already
registered under some section of the kit catalog, the descriptor is
skipped: nothing is appended for it, so the catalog's section set and
every existing pattern stay unchanged (the importer never rewrites
existing sections at all, it only appends).  A registered fragment in
a later position does not have this effect. -/
theorem first_usable_present_skips (kc : droidconfig)
    (kitsKeys : List String) (config : PyConfig) (t : Tracker)
    (sig : String)
    (h1 : firstUsable (canonicalize t.code_signature) = some sig)
    (h2 : kc.is_pattern_present sig = true) :
    processTracker kc kitsKeys config t = config := by
  unfold processTracker
  revert h1
  generalize canonicalize t.code_signature = l
  intro h1
  induction l with
  | nil => simp [firstUsable] at h1
  | cons a l ih =>
      cases hp : (sanitizeFrag a != "") with
      | false =>
          have he : sanitizeFrag a = "" := by simpa using hp
          have h1x : firstUsable l = some sig := by
            simpa [firstUsable, List.find?_cons, hp] using h1
          simp only [processFrags, if_pos he]
          exact ih h1x
      | true =>
          have hne : ¬ sanitizeFrag a = "" := by simpa using hp
          have ha : a = sig := by
            have h1x := h1
            simp [firstUsable, List.find?_cons, hp] at h1x
            exact h1x
          subst ha
          simp [processFrags, hne, h2]

/-- Witness for the amended C7: importing the descriptor
(name "Foo", code_signature "a.b") against a kit catalog whose section
"existing" already registers the fragment "a/b" appends nothing. -/
theorem first_usable_present_skips_witness :
    firstUsable (canonicalize "a.b") = some "a/b" ∧
    droidconfig.is_pattern_present ⟨[("existing", "a/b")]⟩ "a/b" = true ∧
    processTracker ⟨[("existing", "a/b")]⟩ ["existing"] [] ⟨"Foo", "a.b"⟩ = [] :=
  ⟨by decide, by decide,
    first_usable_present_skips ⟨[("existing", "a/b")]⟩ ["existing"] []
      ⟨"Foo", "a.b"⟩ "a/b" (by decide) (by decide)⟩

/-- Counterexample to claim C7 as stated: the fragment "a/b" of the
descriptor (name "New", code_signature "x.y|a.b") IS registered in the
kit catalog, yet a new section is appended, because the merge decision
falls on the first surviving fragment "x/y" (not registered) and the
loop breaks before ever consulting "a/b". -/
theorem later_fragment_present_still_appends :
    droidconfig.is_pattern_present ⟨[("existing", "a/b")]⟩ "a/b" = true ∧
    ("a/b" : String) ∈ canonicalize "x.y|a.b" ∧
    processTracker ⟨[("existing", "a/b")]⟩ ["existing"] [] ⟨"New", "x.y|a.b"⟩ =
      [("new", [("description", "New (from ETIP Exodus Privacy list)"),
                ("pattern", "x/y|a/b")])] := by decide

/-- Claim C8: a non-success (non-200) response from the remote feed
aborts the whole import before anything is computed or written: the
function returns (no exception is modelled to escape) and the kit
catalog's backing config source is not written at all. -/
theorem non_success_response_aborts (resp : FeedResponse)
    (kc : droidconfig) (kitsKeys : List String)
    (h : resp.status_code ≠ 200) :
    import_exodus_trackers resp kc kitsKeys = none := by
  simp [import_exodus_trackers, h]

/-- Witness for C8 at a concrete 404 response: the import performs no
write. -/
theorem non_success_response_aborts_witness :
    (FeedResponse.mk 404 [⟨"Foo", "a.b"⟩]).status_code ≠ 200 ∧
    import_exodus_trackers ⟨404, [⟨"Foo", "a.b"⟩]⟩ ⟨[]⟩ [] = none :=
  ⟨by decide,
    non_success_response_aborts ⟨404, [⟨"Foo", "a.b"⟩]⟩ ⟨[]⟩ [] (by decide)⟩

/-- Claim C2: with the import-mode flag unset (so the administrative
import-and-exit branch is not taken) and the four catalog sources
unchanged between calls, `clear_fields` is idempotent — two
consecutive resets yield the same observable record state, hence
identical `dump_json` data and byte-identical serialized reports. -/
theorem clear_fields_idempotent (config : DroidConfig)
    (p : droidproperties) (_h : p.import_exodus = false) :
    clear_fields config (clear_fields config p) = clear_fields config p ∧
    dump_json (clear_fields config (clear_fields config p)) =
      dump_json (clear_fields config p) ∧
    serializeReport (dump_json (clear_fields config (clear_fields config p))) =
      serializeReport (dump_json (clear_fields config p)) := by
  have h1 : clear_fields config (clear_fields config p) = clear_fields config p := rfl
  exact ⟨h1, by rw [h1], by rw [h1]⟩

/-- Witness for C2 at a concrete mutated record (import flag unset)
and concrete catalogs. -/
theorem clear_fields_idempotent_witness :
    sampleRecordW.import_exodus = false ∧
    (clear_fields sampleConfigW (clear_fields sampleConfigW sampleRecordW) =
        clear_fields sampleConfigW sampleRecordW ∧
      dump_json (clear_fields sampleConfigW (clear_fields sampleConfigW sampleRecordW)) =
        dump_json (clear_fields sampleConfigW sampleRecordW) ∧
      serializeReport
          (dump_json (clear_fields sampleConfigW (clear_fields sampleConfigW sampleRecordW))) =
        serializeReport (dump_json (clear_fields sampleConfigW sampleRecordW))) :=
  ⟨by decide, clear_fields_idempotent sampleConfigW sampleRecordW (by decide)⟩

/-- Claim C9: writing two records with identical sha256 through the
relational writer does not raise — the duplicate-key integrity
conflict raised by the second commit is caught and only logged — and
leaves exactly one stored row for that sha256; a commit failure other
than `IntegrityError` is surfaced to the caller unchanged. -/
theorem duplicate_write_is_noop (db : List SqlSample)
    (p1 p2 : droidproperties) (hsha : p1.sha256 = p2.sha256)
    (hnew : countSha db p1.sha256 = 0) :
    (∃ db1, dbWrite none db p1 = .ok db1 ∧ dbWrite none db1 p2 = .ok db1 ∧
        countSha db1 p1.sha256 = 1) ∧
    (∀ q e, e ≠ SqlError.IntegrityError → dbWrite (some e) db q = .error e) := by
  constructor
  · have hany : db.any (fun r => r.sha256 == p1.sha256) = false := by
      rw [List.any_eq_false]
      intro r hr
      simp only [beq_iff_eq]
      intro hcontra
      have : 0 < countSha db p1.sha256 := by
        rw [countSha, List.countP_pos_iff]
        exact ⟨r, hr, by simp [hcontra]⟩
      omega
    refine ⟨db ++ [mkSample p1], ?_, ?_, ?_⟩
    · have hany1 : db.any (fun r => r.sha256 == (mkSample p1).sha256) = false :=
        hany
      unfold dbWrite session_commit
      rw [hany1]
      simp
    · have hdup : (db ++ [mkSample p1]).any
          (fun r => r.sha256 == (mkSample p2).sha256) = true := by
        rw [List.any_eq_true]
        exact ⟨mkSample p1, by simp, by simp [mkSample, hsha]⟩
      unfold dbWrite session_commit
      rw [hdup]
      simp
    · rw [countSha, List.countP_append]
      rw [countSha] at hnew
      simp [hnew, mkSample, List.countP_cons]
  · intro q e he
    cases e with
    | IntegrityError => exact absurd rfl he
    | OperationalError => simp [dbWrite, session_commit]

/-- Witness for C9: two concrete records sharing sha256 "abc" written
into an empty store. -/
theorem duplicate_write_is_noop_witness :
    sampleRecordW.sha256 = sampleRecordW2.sha256 ∧
    countSha [] sampleRecordW.sha256 = 0 ∧
    ((∃ db1, dbWrite none [] sampleRecordW = .ok db1 ∧
        dbWrite none db1 sampleRecordW2 = .ok db1 ∧
        countSha db1 sampleRecordW.sha256 = 1) ∧
      (∀ q e, e ≠ SqlError.IntegrityError →
        dbWrite (some e) [] q = .error e)) :=
  ⟨by decide, by decide,
    duplicate_write_is_noop [] sampleRecordW sampleRecordW2 (by decide) (by decide)⟩

/-- Claim C1: for every prior state of the record (arbitrary external
mutation of its fields), after one `clear_fields` call every fixed
field and the certificate, manifest and dex sub-records equal their
documented defaults (0, false, null, empty list, country "unknown",
filetype UNKNOWN), and the key set of each dynamic sub-record equals
exactly the section-name set of the matching catalog plus that
category's fixed extras (smali: packed=false, multidex=[]; wide:
app_name=null, phonenumbers=[], urls=[], base64_strings=[],
apk_zip_url=false), with every section flag false — no key from the
previous sample survives.  The hypotheses record the tacit assumption
that no catalog section is named like one of the fixed extra fields
whose default differs from a section flag. -/
theorem clear_fields_resets_to_defaults (config : DroidConfig)
    (p : droidproperties)
    (hsm : "multidex" ∉ config.SMALI_CONFIGFILE.get_sections)
    (hw : ∀ x ∈ (["app_name", "phonenumbers", "urls",
        "base64_strings"] : List String),
      x ∉ config.WIDE_CONFIGFILE.get_sections) :
    (clear_fields config p).file_size = 0 ∧
    (clear_fields config p).file_small = false ∧
    (clear_fields config p).file_nb_classes = 0 ∧
    (clear_fields config p).file_nb_dir = 0 ∧
    (clear_fields config p).file_innerzips = false ∧
    (clear_fields config p).filetype = FileType.UNKNOWN ∧
    (clear_fields config p).certificate = certDefault ∧
    (clear_fields config p).manifest = manifestDefault ∧
    (clear_fields config p).dex = dexDefault ∧
    (∀ q, q ∈ dictKeys (clear_fields config p).smali ↔
      (q ∈ config.SMALI_CONFIGFILE.get_sections ∨
        q = "packed" ∨ q = "multidex")) ∧
    (∀ sec ∈ config.SMALI_CONFIGFILE.get_sections,
      dictGet (clear_fields config p).smali sec = some (PVal.b false)) ∧
    dictGet (clear_fields config p).smali "packed" = some (PVal.b false) ∧
    dictGet (clear_fields config p).smali "multidex" =
      some (PVal.strlist []) ∧
    (∀ q, q ∈ dictKeys (clear_fields config p).wide ↔
      (q ∈ config.WIDE_CONFIGFILE.get_sections ∨
        q ∈ (["app_name", "phonenumbers", "urls", "base64_strings",
              "apk_zip_url"] : List String))) ∧
    (∀ sec ∈ config.WIDE_CONFIGFILE.get_sections,
      dictGet (clear_fields config p).wide sec = some (PVal.b false)) ∧
    dictGet (clear_fields config p).wide "app_name" = some PVal.null ∧
    dictGet (clear_fields config p).wide "phonenumbers" =
      some (PVal.strlist []) ∧
    dictGet (clear_fields config p).wide "urls" = some (PVal.strlist []) ∧
    dictGet (clear_fields config p).wide "base64_strings" =
      some (PVal.strlist []) ∧
    dictGet (clear_fields config p).wide "apk_zip_url" =
      some (PVal.b false) ∧
    (∀ q, q ∈ dictKeys (clear_fields config p).arm ↔
      q ∈ config.ARM_CONFIGFILE.get_sections) ∧
    (∀ sec ∈ config.ARM_CONFIGFILE.get_sections,
      dictGet (clear_fields config p).arm sec = some (PVal.b false)) ∧
    (∀ q, q ∈ dictKeys (clear_fields config p).kits ↔
      q ∈ config.KIT_CONFIGFILE.get_sections) ∧
    (∀ sec ∈ config.KIT_CONFIGFILE.get_sections,
      dictGet (clear_fields config p).kits sec = some (PVal.b false)) := by
  refine ⟨rfl, rfl, rfl, rfl, rfl, rfl, rfl, rfl, rfl,
    ?_, ?_, ?_, ?_, ?_, ?_, ?_, ?_, ?_, ?_, ?_, ?_, ?_, ?_, ?_⟩
  · intro q
    show q ∈ dictKeys (smaliRebuild config []) ↔ _
    rw [smaliRebuild]
    simp only [dictKeys_dictSet, dictKeys_foldl_false]
    simp only [dictKeys, List.map_nil, List.not_mem_nil, or_false]
    tauto
  · intro sec hsec
    show dictGet (smaliRebuild config []) sec = some (PVal.b false)
    have hne : ¬ sec = "multidex" := fun hx => hsm (hx ▸ hsec)
    rw [smaliRebuild]
    simp only [dictGet_dictSet, if_neg hne]
    by_cases hp : sec = "packed"
    · rw [if_pos hp]
    · rw [if_neg hp, dictGet_foldl_false, if_pos hsec]
  · show dictGet (smaliRebuild config []) "packed" = some (PVal.b false)
    have h1 : ¬ ("packed" : String) = "multidex" := by decide
    rw [smaliRebuild]
    simp only [dictGet_dictSet, if_neg h1]
    simp
  · show dictGet (smaliRebuild config []) "multidex" = some (PVal.strlist [])
    rw [smaliRebuild]
    simp only [dictGet_dictSet]
    simp
  · intro q
    show q ∈ dictKeys (wideRebuild config []) ↔ _
    rw [wideRebuild, dictKeys_foldl_false]
    rfl
  · intro sec hsec
    show dictGet (wideRebuild config []) sec = some (PVal.b false)
    rw [wideRebuild, dictGet_foldl_false, if_pos hsec]
  · show dictGet (wideRebuild config []) "app_name" = some PVal.null
    have h1 : ("app_name" : String) ∉ config.WIDE_CONFIGFILE.get_sections :=
      hw "app_name" (by simp)
    rw [wideRebuild, dictGet_foldl_false, if_neg h1]
    decide
  · show dictGet (wideRebuild config []) "phonenumbers" =
      some (PVal.strlist [])
    have h1 : ("phonenumbers" : String) ∉ config.WIDE_CONFIGFILE.get_sections :=
      hw "phonenumbers" (by simp)
    rw [wideRebuild, dictGet_foldl_false, if_neg h1]
    decide
  · show dictGet (wideRebuild config []) "urls" = some (PVal.strlist [])
    have h1 : ("urls" : String) ∉ config.WIDE_CONFIGFILE.get_sections :=
      hw "urls" (by simp)
    rw [wideRebuild, dictGet_foldl_false, if_neg h1]
    decide
  · show dictGet (wideRebuild config []) "base64_strings" =
      some (PVal.strlist [])
    have h1 : ("base64_strings" : String) ∉ config.WIDE_CONFIGFILE.get_sections :=
      hw "base64_strings" (by simp)
    rw [wideRebuild, dictGet_foldl_false, if_neg h1]
    decide
  · show dictGet (wideRebuild config []) "apk_zip_url" = some (PVal.b false)
    rw [wideRebuild, dictGet_foldl_false]
    by_cases hz : ("apk_zip_url" : String) ∈ config.WIDE_CONFIGFILE.get_sections
    · rw [if_pos hz]
    · rw [if_neg hz]
      decide
  · intro q
    show q ∈ dictKeys (armRebuild config []) ↔ _
    rw [armRebuild, dictKeys_foldl_false]
    simp [dictKeys]
  · intro sec hsec
    show dictGet (armRebuild config []) sec = some (PVal.b false)
    rw [armRebuild, dictGet_foldl_false, if_pos hsec]
  · intro q
    show q ∈ dictKeys (kitsRebuild config []) ↔ _
    rw [kitsRebuild, dictKeys_foldl_false]
    simp [dictKeys]
  · intro sec hsec
    show dictGet (kitsRebuild config []) sec = some (PVal.b false)
    rw [kitsRebuild, dictGet_foldl_false, if_pos hsec]

/-- Witness for C1: the general reset theorem applied to the concrete
catalogs `sampleConfigW` and the concretely mutated record
`sampleRecordW`, with both side conditions discharged by computation. -/
theorem clear_fields_resets_to_defaults_witness :
    ("multidex" ∉ sampleConfigW.SMALI_CONFIGFILE.get_sections) ∧
    (∀ x ∈ (["app_name", "phonenumbers", "urls",
        "base64_strings"] : List String),
      x ∉ sampleConfigW.WIDE_CONFIGFILE.get_sections) ∧
    (
    (clear_fields sampleConfigW sampleRecordW).file_size = 0 ∧
    (clear_fields sampleConfigW sampleRecordW).file_small = false ∧
    (clear_fields sampleConfigW sampleRecordW).file_nb_classes = 0 ∧
    (clear_fields sampleConfigW sampleRecordW).file_nb_dir = 0 ∧
    (clear_fields sampleConfigW sampleRecordW).file_innerzips = false ∧
    (clear_fields sampleConfigW sampleRecordW).filetype = FileType.UNKNOWN ∧
    (clear_fields sampleConfigW sampleRecordW).certificate = certDefault ∧
    (clear_fields sampleConfigW sampleRecordW).manifest = manifestDefault ∧
    (clear_fields sampleConfigW sampleRecordW).dex = dexDefault ∧
    (∀ q, q ∈ dictKeys (clear_fields sampleConfigW sampleRecordW).smali ↔
      (q ∈ sampleConfigW.SMALI_CONFIGFILE.get_sections ∨
        q = "packed" ∨ q = "multidex")) ∧
    (∀ sec ∈ sampleConfigW.SMALI_CONFIGFILE.get_sections,
      dictGet (clear_fields sampleConfigW sampleRecordW).smali sec = some (PVal.b false)) ∧
    dictGet (clear_fields sampleConfigW sampleRecordW).smali "packed" = some (PVal.b false) ∧
    dictGet (clear_fields sampleConfigW sampleRecordW).smali "multidex" =
      some (PVal.strlist []) ∧
    (∀ q, q ∈ dictKeys (clear_fields sampleConfigW sampleRecordW).wide ↔
      (q ∈ sampleConfigW.WIDE_CONFIGFILE.get_sections ∨
        q ∈ (["app_name", "phonenumbers", "urls", "base64_strings",
              "apk_zip_url"] : List String))) ∧
    (∀ sec ∈ sampleConfigW.WIDE_CONFIGFILE.get_sections,
      dictGet (clear_fields sampleConfigW sampleRecordW).wide sec = some (PVal.b false)) ∧
    dictGet (clear_fields sampleConfigW sampleRecordW).wide "app_name" = some PVal.null ∧
    dictGet (clear_fields sampleConfigW sampleRecordW).wide "phonenumbers" =
      some (PVal.strlist []) ∧
    dictGet (clear_fields sampleConfigW sampleRecordW).wide "urls" = some (PVal.strlist []) ∧
    dictGet (clear_fields sampleConfigW sampleRecordW).wide "base64_strings" =
      some (PVal.strlist []) ∧
    dictGet (clear_fields sampleConfigW sampleRecordW).wide "apk_zip_url" =
      some (PVal.b false) ∧
    (∀ q, q ∈ dictKeys (clear_fields sampleConfigW sampleRecordW).arm ↔
      q ∈ sampleConfigW.ARM_CONFIGFILE.get_sections) ∧
    (∀ sec ∈ sampleConfigW.ARM_CONFIGFILE.get_sections,
      dictGet (clear_fields sampleConfigW sampleRecordW).arm sec = some (PVal.b false)) ∧
    (∀ q, q ∈ dictKeys (clear_fields sampleConfigW sampleRecordW).kits ↔
      q ∈ sampleConfigW.KIT_CONFIGFILE.get_sections) ∧
    (∀ sec ∈ sampleConfigW.KIT_CONFIGFILE.get_sections,
      dictGet (clear_fields sampleConfigW sampleRecordW).kits sec = some (PVal.b false))) :=
  ⟨by decide, by decide,
    clear_fields_resets_to_defaults sampleConfigW sampleRecordW
      (by decide) (by decide)⟩

theorem instanceA_heap (config : DroidConfig) :
    (instanceA config).1 = heapA config := rfl

theorem instanceA_smali_ref (config : DroidConfig) :
    resolveAttr initClass (instanceA config).2 Attr.smali = 2 := rfl

theorem instanceB_heap (config : DroidConfig) :
    (instanceB config).1 = heapB config := by
  rw [instanceB, instanceA_heap]
  rfl

theorem instanceB_attrs (config : DroidConfig) :
    (instanceB config).2 = instAttrsB := by
  funext a
  rw [instanceB, instanceA_heap]
  cases a <;> rfl

theorem instanceA_cert_ref (config : DroidConfig) :
    resolveAttr initClass (instanceA config).2 Attr.certificate = 7 := rfl

theorem instanceA_manifest_ref (config : DroidConfig) :
    resolveAttr initClass (instanceA config).2 Attr.manifest = 8 := rfl

theorem instanceA_dex_ref (config : DroidConfig) :
    resolveAttr initClass (instanceA config).2 Attr.dex = 9 := rfl

theorem mutatedHeap_eq (config : DroidConfig) (k : String) (v : PVal) :
    mutatedHeap config k v = heapMut config k v := by
  unfold mutatedHeap
  rw [instanceB_heap, instanceA_smali_ref]
  rfl

theorem afterBReset_heap (config : DroidConfig) (k : String) (v : PVal) :
    (afterBReset config k v).1 = heapFinal config := by
  unfold afterBReset
  rw [mutatedHeap_eq, instanceB_attrs]
  rfl

theorem afterBReset_attrs (config : DroidConfig) (k : String) (v : PVal) :
    (afterBReset config k v).2 = instAttrsBReset := by
  funext a
  unfold afterBReset
  rw [mutatedHeap_eq, instanceB_attrs]
  cases a <;> rfl

theorem class_level_dicts_shared_across_instances (config : DroidConfig)
    (k : String) (v : PVal) :
    (resolveAttr initClass (instanceA config).2 Attr.smali =
      resolveAttr initClass (instanceB config).2 Attr.smali) ∧
    (resolveAttr initClass (instanceA config).2 Attr.wide =
      resolveAttr initClass (instanceB config).2 Attr.wide) ∧
    (resolveAttr initClass (instanceA config).2 Attr.arm =
      resolveAttr initClass (instanceB config).2 Attr.arm) ∧
    (resolveAttr initClass (instanceA config).2 Attr.kits =
      resolveAttr initClass (instanceB config).2 Attr.kits) ∧
    ((afterBReset config k v).1.getRef
        (resolveAttr initClass (instanceA config).2 Attr.smali) =
      smaliRebuild config []) ∧
    ((afterBReset config k v).1.getRef
        (resolveAttr initClass (instanceA config).2 Attr.wide) =
      wideRebuild config []) ∧
    ((afterBReset config k v).1.getRef
        (resolveAttr initClass (instanceA config).2 Attr.arm) =
      armRebuild config []) ∧
    ((afterBReset config k v).1.getRef
        (resolveAttr initClass (instanceA config).2 Attr.kits) =
      kitsRebuild config []) ∧
    (resolveAttr initClass (instanceA config).2 Attr.certificate ≠
      resolveAttr initClass (afterBReset config k v).2 Attr.certificate) ∧
    (resolveAttr initClass (instanceA config).2 Attr.manifest ≠
      resolveAttr initClass (afterBReset config k v).2 Attr.manifest) ∧
    (resolveAttr initClass (instanceA config).2 Attr.dex ≠
      resolveAttr initClass (afterBReset config k v).2 Attr.dex) ∧
    ((afterBReset config k v).1.getRef
        (resolveAttr initClass (instanceA config).2 Attr.certificate) =
      certDefault) ∧
    ((afterBReset config k v).1.getRef
        (resolveAttr initClass (instanceA config).2 Attr.manifest) =
      manifestDefault) ∧
    ((afterBReset config k v).1.getRef
        (resolveAttr initClass (instanceA config).2 Attr.dex) =
      dexDefault) :=
  by
  rw [instanceB_attrs, afterBReset_heap, afterBReset_attrs,
    instanceA_cert_ref, instanceA_manifest_ref, instanceA_dex_ref]
  refine ⟨rfl, rfl, rfl, rfl, rfl, rfl, rfl, rfl,
    by decide, by decide, by decide, rfl, rfl, rfl⟩
